import Mathlib

/-!
Shallow embedding of the validation + data-transformation pipeline of the
weather-info-app repository (frontend/src/utils/validation.js,
frontend/src/utils/backendApi.js, frontend/src/components/WeatherForm.jsx and
the dashboard orchestrator), together with proofs settling the frozen claims.

Modelling conventions:
* JavaScript numbers are modelled as exact rationals (`ℚ`).  None of the
  verified properties depends on IEEE-754 rounding: the validators only compare
  against the exactly representable bounds ±90/±180/730 and the transformers
  copy values verbatim.
* A JavaScript value that may be `null`/`undefined` is an `Option`.
* JavaScript `Date` objects are their epoch-millisecond timestamps (`ℤ`); the
  impure read of the current clock in `validateDateRange`
  (`new Date()` truncated to local midnight by `setHours(0,0,0,0)`) is passed
  in as the explicit parameter `today`.
* `Math.ceil(diffTime / 86400000)` on a nonnegative integer millisecond count
  is modelled as the exact ceiling division; for every day-span reachable from
  calendar dates the double-precision quotient is far closer to the exact
  value than to the next integer, so the exact ceiling is faithful.
-/

/-- A value handed to the coordinate validators: the form delivers strings,
but the functions are documented for `number|string`. -/
inductive JSInput where
  | num (q : ℚ)
  | str (s : String)
deriving DecidableEq

/-- Value of a digit string. -/
def digitsToNat (ds : List Char) : ℕ :=
  ds.foldl (fun acc c => 10 * acc + (c.toNat - '0'.toNat)) 0

/-- The syntactic pieces of a successfully scanned float literal prefix:
sign, integer-part value, fraction-part value and digit count, exponent. -/
structure FloatParse where
  negative : Bool
  intVal : ℕ
  fracVal : ℕ
  fracLen : ℕ
  exp : ℤ
deriving DecidableEq

/-- Scanning phase of JavaScript `parseFloat`: skip leading whitespace, an
optional sign, then the longest prefix of the form `digits[.digits][e[±]digits]`;
`none` models the `NaN` result when no digit is consumed.  (The `Infinity`
forms are not modelled; no claim involves them.) -/
def scanFloat (cs : List Char) : Option FloatParse :=
  let cs := cs.dropWhile (fun c => c = ' ' || c = '\t' || c = '\n' || c = '\r')
  let (neg, cs) : Bool × List Char :=
    match cs with
    | '-' :: rest => (true, rest)
    | '+' :: rest => (false, rest)
    | _ => (false, cs)
  let intDigits := cs.takeWhile Char.isDigit
  let afterInt := cs.dropWhile Char.isDigit
  let (fracDigits, afterFrac) : List Char × List Char :=
    match afterInt with
    | '.' :: rest => (rest.takeWhile Char.isDigit, rest.dropWhile Char.isDigit)
    | _ => ([], afterInt)
  if intDigits = [] ∧ fracDigits = [] then
    none
  else
    let exp : ℤ :=
      match afterFrac with
      | c :: rest =>
        if c = 'e' ∨ c = 'E' then
          let (esgn, rest') : ℤ × List Char :=
            match rest with
            | '-' :: r => (-1, r)
            | '+' :: r => (1, r)
            | _ => (1, rest)
          let eds := rest'.takeWhile Char.isDigit
          if eds = [] then 0 else esgn * (digitsToNat eds : ℤ)
        else 0
      | [] => 0
    some { negative := neg, intVal := digitsToNat intDigits,
           fracVal := digitsToNat fracDigits, fracLen := fracDigits.length, exp := exp }

/-- Numeric value of a scanned float literal. -/
def floatValue (p : FloatParse) : ℚ :=
  (if p.negative then -1 else 1) *
    ((p.intVal : ℚ) + (p.fracVal : ℚ) / 10 ^ p.fracLen) * (10 : ℚ) ^ p.exp

/-- JavaScript `parseFloat` on a form value: a number parses to itself, a
string through the scanner. -/
def parseFloat (v : JSInput) : Option ℚ :=
  match v with
  | .num q => some q
  | .str s => (scanFloat s.toList).map floatValue

/-- The `{ isValid, error }` objects returned by every validator. -/
structure ValidationResult where
  isValid : Bool
  error : Option String
deriving DecidableEq

/-- `validateLatitude` from validation.js. -/
def validateLatitude (latitude : JSInput) : ValidationResult :=
  match parseFloat latitude with
  | none => { isValid := false, error := some "Latitude must be a valid number" }
  | some lat =>
    if lat < -90 ∨ lat > 90 then
      { isValid := false, error := some "Latitude must be between -90 and 90 degrees" }
    else
      { isValid := true, error := none }

/-- `validateLongitude` from validation.js. -/
def validateLongitude (longitude : JSInput) : ValidationResult :=
  match parseFloat longitude with
  | none => { isValid := false, error := some "Longitude must be a valid number" }
  | some lng =>
    if lng < -180 ∨ lng > 180 then
      { isValid := false, error := some "Longitude must be between -180 and 180 degrees" }
    else
      { isValid := true, error := none }

/-- `Math.ceil(Math.abs(endDate - startDate) / (1000*60*60*24))`: the absolute
day-count difference of two timestamps, rounded up. -/
def diffDaysOf (startDate endDate : ℤ) : ℕ :=
  ((endDate - startDate).natAbs + 86400000 - 1) / 86400000

/-- `validateDateRange` from validation.js; `today` is the current clock
truncated to midnight (`new Date(); today.setHours(0,0,0,0)`). -/
def validateDateRange (startDate endDate : Option ℤ) (today : ℤ) : ValidationResult :=
  match startDate, endDate with
  | some s, some e =>
    if e < s then
      { isValid := false, error := some "Start date must be before or equal to end date" }
    else if today < e then
      { isValid := false, error := some "End date cannot be in the future" }
    else if 730 < diffDaysOf s e then
      { isValid := false, error := some "Date range cannot exceed 2 years" }
    else
      { isValid := true, error := none }
  | _, _ => { isValid := false, error := some "Both start and end dates are required" }

/-- The form payload `{ latitude, longitude, startDate, endDate }`:
coordinates as typed (strings from the inputs, numbers also admitted),
dates as nullable `Date`s. -/
structure FormData where
  latitude : JSInput
  longitude : JSInput
  startDate : Option ℤ
  endDate : Option ℤ

/-- `validateFormInputs` from validation.js: latitude, then longitude, then the
date range, returning the first failing result. -/
def validateFormInputs (formData : FormData) (today : ℤ) : ValidationResult :=
  let latValidation := validateLatitude formData.latitude
  if !latValidation.isValid then latValidation
  else
    let lngValidation := validateLongitude formData.longitude
    if !lngValidation.isValid then lngValidation
    else
      let dateValidation := validateDateRange formData.startDate formData.endDate today
      if !dateValidation.isValid then dateValidation
      else { isValid := true, error := none }

/-- The `daily` object of the backend payload: the `time` axis plus the six
parallel numeric arrays, each possibly absent (`undefined`). -/
structure Daily where
  time : Option (List String) := none
  temperature_2m_max : Option (List ℚ) := none
  temperature_2m_min : Option (List ℚ) := none
  temperature_2m_mean : Option (List ℚ) := none
  apparent_temperature_max : Option (List ℚ) := none
  apparent_temperature_min : Option (List ℚ) := none
  apparent_temperature_mean : Option (List ℚ) := none
deriving DecidableEq

/-- The raw backend payload.  Metadata fields (`latitude`, `longitude`,
`daily_units`, ...) are never consumed by the transformers and are omitted. -/
structure RawSeriesResponse where
  daily : Option Daily := none
deriving DecidableEq

/-- A table cell: a raw numeric value or the "N/A" sentinel. -/
inductive CellVal where
  | num (q : ℚ)
  | na
deriving DecidableEq

/-- One row of the table view. -/
structure TableRow where
  id : ℕ
  date : String
  tempMax : CellVal
  tempMin : CellVal
  tempMean : CellVal
  apparentTempMax : CellVal
  apparentTempMin : CellVal
  apparentTempMean : CellVal
deriving DecidableEq

/-- `daily.<field>?.[index] ?? 'N/A'`: optional chaining plus nullish
coalescing on a possibly-absent array. -/
def optCell (arr : Option (List ℚ)) (index : ℕ) : CellVal :=
  match arr with
  | none => CellVal.na
  | some l =>
    match l[index]? with
    | some q => CellVal.num q
    | none => CellVal.na

/-- `transformDataForTable` from backendApi.js. -/
def transformDataForTable (weatherData : Option RawSeriesResponse) : List TableRow :=
  match weatherData with
  | none => []
  | some w =>
    match w.daily with
    | none => []
    | some daily =>
      let dates := daily.time.getD []
      dates.mapIdx (fun index date =>
        { id := index + 1
          date := date
          tempMax := optCell daily.temperature_2m_max index
          tempMin := optCell daily.temperature_2m_min index
          tempMean := optCell daily.temperature_2m_mean index
          apparentTempMax := optCell daily.apparent_temperature_max index
          apparentTempMin := optCell daily.apparent_temperature_min index
          apparentTempMean := optCell daily.apparent_temperature_mean index })

/-- One chart dataset as built by `transformDataForChart`. -/
structure ChartDataset where
  label : String
  data : List ℚ
  borderColor : String
  backgroundColor : String
  tension : ℚ
deriving DecidableEq

/-- The chart payload `{ labels, datasets }`. -/
structure ChartData where
  labels : List String
  datasets : List ChartDataset
deriving DecidableEq

/-- `transformDataForChart` from backendApi.js. -/
def transformDataForChart (weatherData : Option RawSeriesResponse) : Option ChartData :=
  match weatherData with
  | none => none
  | some w =>
    match w.daily with
    | none => none
    | some daily =>
      some
        { labels := daily.time.getD []
          datasets :=
            [ { label := "Max Temperature (°C)"
                data := daily.temperature_2m_max.getD []
                borderColor := "rgb(239, 68, 68)"
                backgroundColor := "rgba(239, 68, 68, 0.1)"
                tension := 0.4 },
              { label := "Min Temperature (°C)"
                data := daily.temperature_2m_min.getD []
                borderColor := "rgb(59, 130, 246)"
                backgroundColor := "rgba(59, 130, 246, 0.1)"
                tension := 0.4 },
              { label := "Mean Temperature (°C)"
                data := daily.temperature_2m_mean.getD []
                borderColor := "rgb(16, 185, 129)"
                backgroundColor := "rgba(16, 185, 129, 0.1)"
                tension := 0.4 } ] }

example : transformDataForTable none = [] := by decide
example : transformDataForTable (some {}) = [] := by decide
example : transformDataForChart none = none := by decide
example :
    transformDataForTable
      (some { daily := some { time := some ["2023-01-01", "2023-01-02"],
                              temperature_2m_max := some [5.2] } }) =
    [ { id := 1, date := "2023-01-01", tempMax := CellVal.num 5.2, tempMin := CellVal.na,
        tempMean := CellVal.na, apparentTempMax := CellVal.na, apparentTempMin := CellVal.na,
        apparentTempMean := CellVal.na },
      { id := 2, date := "2023-01-02", tempMax := CellVal.na, tempMin := CellVal.na,
        tempMean := CellVal.na, apparentTempMax := CellVal.na, apparentTempMin := CellVal.na,
        apparentTempMean := CellVal.na } ] := by rfl

/-- The uniform `{ success, data, error }` envelope. -/
structure OperationResult (α : Type) where
  success : Bool
  data : Option α
  error : Option String
deriving DecidableEq

/-- The three shapes an axios rejection can take: `error.response` present
(server answered with an error status; `errData` is `error.response.data?.error`,
possibly absent), `error.request` present without a response (network
unreachable), or neither (request construction / setup error with
`error.message`, possibly absent). -/
inductive AxiosError where
  | response (status : ℕ) (errData : Option String) (statusText : String)
  | request
  | setup (message : Option String)
deriving DecidableEq

/-- Outcome of one axios round trip: resolved with a parsed body, or rejected. -/
inductive AxiosOutcome (α : Type) where
  | ok (data : α)
  | err (e : AxiosError)
deriving DecidableEq

/-- JavaScript `a || b` for strings: `b` when `a` is absent or empty (falsy). -/
def jsOrString (a : Option String) (b : String) : String :=
  match a with
  | some s => if s = "" then b else s
  | none => b

/-- Body of the store endpoint's success response. -/
structure StoreResponse where
  message : String := ""
  filename : String := ""
  location : String := ""
deriving DecidableEq

/-- `storeWeatherData` from backendApi.js, as a function of the transport
outcome of its single `api.post`. -/
def storeWeatherData (outcome : AxiosOutcome StoreResponse) : OperationResult StoreResponse :=
  match outcome with
  | .ok d => { success := true, data := some d, error := none }
  | .err e =>
    let errorMessage :=
      match e with
      | .response status errData statusText =>
        "API Error: " ++ toString status ++ " - " ++ jsOrString errData statusText
      | .request => "Network error: Unable to reach backend service"
      | .setup message => jsOrString message "Unknown error occurred"
    { success := false, data := none, error := some errorMessage }

/-- `getWeatherFileContent` from backendApi.js, as a function of the requested
filename and the transport outcome of its single `api.get`. -/
def getWeatherFileContent (filename : String) (outcome : AxiosOutcome RawSeriesResponse) :
    OperationResult RawSeriesResponse :=
  match outcome with
  | .ok d => { success := true, data := some d, error := none }
  | .err e =>
    let errorMessage :=
      match e with
      | .response status errData statusText =>
        "API Error: " ++ toString status ++ " - " ++ jsOrString errData statusText
      | .request => "Network error: Unable to reach backend service"
      | .setup message => jsOrString message "Unknown error occurred"
    { success := false, data := none, error := some errorMessage }

/-- The `lastQuery` record stored on success.  The coordinates are the
`parseFloat`ed form values (JS numbers, `none` = `NaN`); the ISO date strings
are presentation-only and kept as the underlying timestamps. -/
structure LastQuery where
  latitude : Option ℚ
  longitude : Option ℚ
  startDate : Option ℤ
  endDate : Option ℤ
  filename : String
deriving DecidableEq

/-- The dashboard component's state hooks. -/
structure DashboardState where
  loading : Bool
  weatherData : Option RawSeriesResponse
  chartData : Option ChartData
  tableData : List TableRow
  error : Option String
  lastQuery : Option LastQuery
deriving DecidableEq

/-- The payload `WeatherForm.handleSubmit` passes to `onSubmit`:
`parseFloat`ed coordinates and the picked dates. -/
structure SubmittedQuery where
  latitude : Option ℚ
  longitude : Option ℚ
  startDate : Option ℤ
  endDate : Option ℤ
deriving DecidableEq

/-- `handleFormSubmit` from the dashboard component, as a function of the
incoming state, the submitted query and the transport outcomes of the two
network stages.  Returns the final state together with the number of calls
made to the store and the retrieve-by-key operations; the retrieve outcome is
consumed only on the store-success path. -/
def handleFormSubmit (st : DashboardState) (q : SubmittedQuery)
    (storeOutcome : AxiosOutcome StoreResponse)
    (fetchOutcome : AxiosOutcome RawSeriesResponse) : DashboardState × ℕ × ℕ :=
  let st := { st with loading := true, error := none }
  let storeResult := storeWeatherData storeOutcome
  if storeResult.success then
    let filename := (storeResult.data.map StoreResponse.filename).getD ""
    let contentResult := getWeatherFileContent filename fetchOutcome
    if contentResult.success then
      ({ st with
          loading := false
          weatherData := contentResult.data
          chartData := transformDataForChart contentResult.data
          tableData := transformDataForTable contentResult.data
          lastQuery := some { latitude := q.latitude, longitude := q.longitude,
                              startDate := q.startDate, endDate := q.endDate,
                              filename := filename } }, 1, 1)
    else
      ({ st with
          loading := false
          error := contentResult.error
          weatherData := none
          chartData := none
          tableData := [] }, 1, 1)
  else
    ({ st with
        loading := false
        error := storeResult.error
        weatherData := none
        chartData := none
        tableData := [] }, 1, 0)

/-- Result of one full submission: the form's `errors.general`, the dashboard
state, and the two network call counts. -/
structure SubmitOutcome where
  formErrors : Option String
  dash : DashboardState
  storeCalls : ℕ
  fetchCalls : ℕ
deriving DecidableEq

/-- `WeatherForm.handleSubmit` composed with the dashboard's
`handleFormSubmit`: validate, stop with the validation error on failure,
otherwise submit the `parseFloat`ed coordinates and the dates. -/
def handleSubmit (f : FormData) (today : ℤ) (st : DashboardState)
    (storeOutcome : AxiosOutcome StoreResponse)
    (fetchOutcome : AxiosOutcome RawSeriesResponse) : SubmitOutcome :=
  let validation := validateFormInputs f today
  if !validation.isValid then
    { formErrors := validation.error, dash := st, storeCalls := 0, fetchCalls := 0 }
  else
    let (d, sc, fc) :=
      handleFormSubmit st
        { latitude := parseFloat f.latitude, longitude := parseFloat f.longitude,
          startDate := f.startDate, endDate := f.endDate }
        storeOutcome fetchOutcome
    { formErrors := none, dash := d, storeCalls := sc, fetchCalls := fc }

/-- C4: `validateLatitude` succeeds iff the input parses and the parsed value
lies in [-90, 90]; `validateLongitude` likewise for [-180, 180]; the four
boundary values are valid; a non-parseable input fails with the
invalid-number error, not the out-of-range error. -/
theorem validate_coordinates_spec (v : JSInput) :
    ((validateLatitude v).isValid = true ↔
      ∃ q, parseFloat v = some q ∧ -90 ≤ q ∧ q ≤ 90) ∧
    ((validateLongitude v).isValid = true ↔
      ∃ q, parseFloat v = some q ∧ -180 ≤ q ∧ q ≤ 180) ∧
    (parseFloat v = none →
      validateLatitude v = ⟨false, some "Latitude must be a valid number"⟩ ∧
      validateLongitude v = ⟨false, some "Longitude must be a valid number"⟩) ∧
    (validateLatitude (.num (-90))).isValid = true ∧
    (validateLatitude (.num 90)).isValid = true ∧
    (validateLongitude (.num (-180))).isValid = true ∧
    (validateLongitude (.num 180)).isValid = true := by
  refine ⟨?_, ?_, ?_, ?_, ?_, ?_, ?_⟩
  · cases h : parseFloat v with
    | none => simp [validateLatitude, h]
    | some q =>
      have hred : validateLatitude v =
          if q < -90 ∨ q > 90 then
            ⟨false, some "Latitude must be between -90 and 90 degrees"⟩
          else ⟨true, none⟩ := by
        unfold validateLatitude
        rw [h]
      rw [hred]
      by_cases hq : q < -90 ∨ q > 90
      · rw [if_pos hq]
        simp only [h, Option.some.injEq]
        constructor
        · intro hfalse
          exact absurd hfalse (by decide)
        · rintro ⟨q', rfl, h1, h2⟩
          rcases hq with h' | h' <;> linarith
      · rw [if_neg hq]
        push_neg at hq
        simp only [h, Option.some.injEq]
        constructor
        · intro _
          exact ⟨q, rfl, hq.1, hq.2⟩
        · intro _
          trivial
  · cases h : parseFloat v with
    | none => simp [validateLongitude, h]
    | some q =>
      have hred : validateLongitude v =
          if q < -180 ∨ q > 180 then
            ⟨false, some "Longitude must be between -180 and 180 degrees"⟩
          else ⟨true, none⟩ := by
        unfold validateLongitude
        rw [h]
      rw [hred]
      by_cases hq : q < -180 ∨ q > 180
      · rw [if_pos hq]
        simp only [h, Option.some.injEq]
        constructor
        · intro hfalse
          exact absurd hfalse (by decide)
        · rintro ⟨q', rfl, h1, h2⟩
          rcases hq with h' | h' <;> linarith
      · rw [if_neg hq]
        push_neg at hq
        simp only [h, Option.some.injEq]
        constructor
        · intro _
          exact ⟨q, rfl, hq.1, hq.2⟩
        · intro _
          trivial
  · intro h
    exact ⟨by simp [validateLatitude, h], by simp [validateLongitude, h]⟩
  · norm_num [validateLatitude, parseFloat]
  · norm_num [validateLatitude, parseFloat]
  · norm_num [validateLongitude, parseFloat]
  · norm_num [validateLongitude, parseFloat]

/-- Witness for C4 at the concrete non-parseable input "abc". -/
theorem validate_coordinates_spec_witness :
    parseFloat (.str "abc") = none ∧
    validateLatitude (.str "abc") = ⟨false, some "Latitude must be a valid number"⟩ ∧
    validateLongitude (.str "abc") = ⟨false, some "Longitude must be a valid number"⟩ :=
  ⟨by decide, (validate_coordinates_spec (.str "abc")).2.2.1 (by decide)⟩

/-- C10: `parseFloat` accepts a string whose leading prefix is a number even
when the whole string is not a numeral, so "45abc" is accepted as the
coordinate 45 by both validators rather than rejected as an invalid number. -/
theorem parseFloat_prefix_accepted :
    parseFloat (.str "45abc") = some 45 ∧
    validateLatitude (.str "45abc") = ⟨true, none⟩ ∧
    validateLongitude (.str "45abc") = ⟨true, none⟩ := by
  have h : parseFloat (.str "45abc") = some 45 := by
    have hs : scanFloat "45abc".toList = some ⟨false, 45, 0, 0, 0⟩ := by decide
    show (scanFloat "45abc".toList).map floatValue = some 45
    rw [hs]
    norm_num [floatValue]
  refine ⟨h, ?_, ?_⟩
  · simp only [validateLatitude, h]
    norm_num
  · simp only [validateLongitude, h]
    norm_num

/-- C3 (amended): for present date pairs, `validateDateRange` fails with the
inverted-range error iff `start > end`; provided the end date is not in the
future (otherwise the future-date check preempts), it fails with the
range-too-large error iff the ordered pair's absolute ceiling day-count
exceeds 730; a span of at most 730 days (so in particular exactly 730, and
`start = end`) succeeds, while 731 fails. -/
theorem validateDateRange_spec (s e today : ℤ) :
    ((validateDateRange (some s) (some e) today).error =
        some "Start date must be before or equal to end date" ↔ e < s) ∧
    (e ≤ today →
      ((validateDateRange (some s) (some e) today).error =
          some "Date range cannot exceed 2 years" ↔ s ≤ e ∧ 730 < diffDaysOf s e)) ∧
    (s ≤ e → e ≤ today → diffDaysOf s e ≤ 730 →
      validateDateRange (some s) (some e) today = ⟨true, none⟩) ∧
    (e ≤ today → validateDateRange (some e) (some e) today = ⟨true, none⟩) := by
  refine ⟨?_, ?_, ?_, ?_⟩
  · dsimp only [validateDateRange]
    split_ifs with h1 h2 h3 <;> simp_all
  · intro he
    dsimp only [validateDateRange]
    split_ifs with h1 h2 h3 <;> simp_all <;> omega
  · intro hse het hd
    dsimp only [validateDateRange]
    split_ifs with h1 h2 h3 <;> first | rfl | (exfalso; omega)
  · intro he
    have hd : diffDaysOf e e ≤ 730 := by simp [diffDaysOf]
    dsimp only [validateDateRange]
    split_ifs with h1 h2 h3 <;> first | rfl | (exfalso; omega)

/-- Witness for C3's amended theorem: a 730-day historical span is accepted. -/
theorem validateDateRange_spec_witness :
    diffDaysOf 0 63072000000 = 730 ∧
    validateDateRange (some 0) (some 63072000000) 63072000000 = ⟨true, none⟩ ∧
    validateDateRange (some 63072000000) (some 63072000000) 63072000000 = ⟨true, none⟩ :=
  ⟨by decide,
   (validateDateRange_spec 0 63072000000 63072000000).2.2.1 (by decide) (by decide) (by decide),
   (validateDateRange_spec 63072000000 63072000000 63072000000).2.2.2 (by decide)⟩

/-- C3 counterexample: with `today = 0`, `start = 0` and `end` 731 days later,
the span exceeds 730 days yet `validateDateRange` fails with the future-date
error, not the range-too-large error the claim requires. -/
theorem validateDateRange_futureDate_counterexample :
    730 < diffDaysOf 0 63158400000 ∧
    (validateDateRange (some 0) (some 63158400000) 0).error =
      some "End date cannot be in the future" ∧
    (validateDateRange (some 0) (some 63158400000) 0).error ≠
      some "Date range cannot exceed 2 years" := by
  refine ⟨by decide, by decide, by decide⟩

/-- Element lookup through `optCell` when the array is present and long
enough. -/
theorem optCell_of_lt (l : List ℚ) (i : ℕ) (hl : i < l.length) :
    optCell (some l) i = CellVal.num (l.get ⟨i, hl⟩) := by
  simp [optCell, List.getElem?_eq_getElem hl]

/-- `optCell` yields the sentinel exactly when the array is absent or too
short. -/
theorem optCell_eq_na_iff (arr : Option (List ℚ)) (i : ℕ) :
    optCell arr i = CellVal.na ↔
      arr = none ∨ ∃ l, arr = some l ∧ l.length ≤ i := by
  cases arr with
  | none => simp [optCell]
  | some l =>
    by_cases hlt : i < l.length
    · rw [optCell_of_lt l i hlt]
      constructor
      · intro h
        exact CellVal.noConfusion h
      · rintro (h | ⟨l', hl', hlen⟩)
        · exact Option.noConfusion h
        · cases hl'
          omega
    · push_neg at hlt
      have hnone : l[i]? = none := List.getElem?_eq_none hlt
      constructor
      · intro _
        exact Or.inr ⟨l, rfl, hlt⟩
      · intro _
        simp [optCell, hnone]

/-- The shape of the row `transformDataForTable` builds at a valid index. -/
theorem transformDataForTable_get? (d : Daily) (times : List String) (i : ℕ)
    (ht : d.time = some times) (hi : i < times.length) :
    (transformDataForTable (some { daily := some d }))[i]? =
      some { id := i + 1
             date := times.get ⟨i, hi⟩
             tempMax := optCell d.temperature_2m_max i
             tempMin := optCell d.temperature_2m_min i
             tempMean := optCell d.temperature_2m_mean i
             apparentTempMax := optCell d.apparent_temperature_max i
             apparentTempMin := optCell d.apparent_temperature_min i
             apparentTempMean := optCell d.apparent_temperature_mean i } := by
  have hform : transformDataForTable (some { daily := some d }) =
      times.mapIdx (fun index date =>
        { id := index + 1
          date := date
          tempMax := optCell d.temperature_2m_max index
          tempMin := optCell d.temperature_2m_min index
          tempMean := optCell d.temperature_2m_mean index
          apparentTempMax := optCell d.apparent_temperature_max index
          apparentTempMin := optCell d.apparent_temperature_min index
          apparentTempMean := optCell d.apparent_temperature_mean index }) := by
    dsimp only [transformDataForTable]
    rw [ht]
    rfl
  rw [hform, List.getElem?_mapIdx, List.getElem?_eq_getElem hi]
  rfl

/-- Number of rows `transformDataForTable` builds. -/
theorem transformDataForTable_length (d : Daily) (times : List String)
    (ht : d.time = some times) :
    (transformDataForTable (some { daily := some d })).length = times.length := by
  dsimp only [transformDataForTable]
  rw [ht]
  exact List.length_mapIdx ..

/-- C1: for a well-formed payload whose `daily.time` has `n` dates and whose
six temperature arrays all have length `n`, `transformDataForTable` yields
exactly `n` rows with `id` fields `1..n` in order, `date` fields equal to the
corresponding `daily.time` entries, and each numeric field equal to the
corresponding source array element, untransformed. -/
theorem transformDataForTable_roundtrip (d : Daily) (times : List String)
    (lmax lmin lmean amax amin amean : List ℚ)
    (ht : d.time = some times)
    (h1 : d.temperature_2m_max = some lmax) (e1 : lmax.length = times.length)
    (h2 : d.temperature_2m_min = some lmin) (e2 : lmin.length = times.length)
    (h3 : d.temperature_2m_mean = some lmean) (e3 : lmean.length = times.length)
    (h4 : d.apparent_temperature_max = some amax) (e4 : amax.length = times.length)
    (h5 : d.apparent_temperature_min = some amin) (e5 : amin.length = times.length)
    (h6 : d.apparent_temperature_mean = some amean) (e6 : amean.length = times.length) :
    (transformDataForTable (some { daily := some d })).length = times.length ∧
    ∀ i, (hi : i < times.length) →
      (transformDataForTable (some { daily := some d }))[i]? =
        some { id := i + 1
               date := times.get ⟨i, hi⟩
               tempMax := CellVal.num (lmax.get ⟨i, by omega⟩)
               tempMin := CellVal.num (lmin.get ⟨i, by omega⟩)
               tempMean := CellVal.num (lmean.get ⟨i, by omega⟩)
               apparentTempMax := CellVal.num (amax.get ⟨i, by omega⟩)
               apparentTempMin := CellVal.num (amin.get ⟨i, by omega⟩)
               apparentTempMean := CellVal.num (amean.get ⟨i, by omega⟩) } := by
  refine ⟨transformDataForTable_length d times ht, ?_⟩
  intro i hi
  rw [transformDataForTable_get? d times i ht hi]
  rw [h1, h2, h3, h4, h5, h6]
  rw [optCell_of_lt lmax i (by omega), optCell_of_lt lmin i (by omega),
      optCell_of_lt lmean i (by omega), optCell_of_lt amax i (by omega),
      optCell_of_lt amin i (by omega), optCell_of_lt amean i (by omega)]

/-- Witness for C1 on a concrete two-day payload. -/
theorem transformDataForTable_roundtrip_witness :
    (transformDataForTable
        (some { daily := some { time := some ["2023-01-01", "2023-01-02"],
                                temperature_2m_max := some [5, 6],
                                temperature_2m_min := some [1, 2],
                                temperature_2m_mean := some [3, 4],
                                apparent_temperature_max := some [7, 8],
                                apparent_temperature_min := some [0, 1],
                                apparent_temperature_mean := some [2, 3] } })).length = 2 ∧
    (transformDataForTable
        (some { daily := some { time := some ["2023-01-01", "2023-01-02"],
                                temperature_2m_max := some [5, 6],
                                temperature_2m_min := some [1, 2],
                                temperature_2m_mean := some [3, 4],
                                apparent_temperature_max := some [7, 8],
                                apparent_temperature_min := some [0, 1],
                                apparent_temperature_mean := some [2, 3] } }))[1]? =
      some { id := 2, date := "2023-01-02", tempMax := CellVal.num 6,
             tempMin := CellVal.num 2, tempMean := CellVal.num 4,
             apparentTempMax := CellVal.num 8, apparentTempMin := CellVal.num 1,
             apparentTempMean := CellVal.num 3 } := by
  have h := transformDataForTable_roundtrip
    { time := some ["2023-01-01", "2023-01-02"],
      temperature_2m_max := some [5, 6],
      temperature_2m_min := some [1, 2],
      temperature_2m_mean := some [3, 4],
      apparent_temperature_max := some [7, 8],
      apparent_temperature_min := some [0, 1],
      apparent_temperature_mean := some [2, 3] }
    ["2023-01-01", "2023-01-02"] [5, 6] [1, 2] [3, 4] [7, 8] [0, 1] [2, 3]
    rfl rfl rfl rfl rfl rfl rfl rfl rfl rfl rfl rfl rfl
  exact ⟨h.1, h.2 1 (by decide)⟩

/-- The six (payload accessor, row projection) pairs, in the order the
transformer writes them. -/
def fieldAccessors : List ((Daily → Option (List ℚ)) × (TableRow → CellVal)) :=
  [(Daily.temperature_2m_max, TableRow.tempMax),
   (Daily.temperature_2m_min, TableRow.tempMin),
   (Daily.temperature_2m_mean, TableRow.tempMean),
   (Daily.apparent_temperature_max, TableRow.apparentTempMax),
   (Daily.apparent_temperature_min, TableRow.apparentTempMin),
   (Daily.apparent_temperature_mean, TableRow.apparentTempMean)]

/-- C2: `transformDataForTable` reads the six field arrays independently at
each index of `daily.time`: the row `id` is `i + 1`, the `date` is the `i`-th
time entry, each of the six fields equals the source element whenever its
array reaches index `i`, and is the "N/A" sentinel exactly when that array is
absent or shorter than `i + 1` — so one row can mix numbers and sentinels; in
particular for `time = ["2023-01-01","2023-01-02"]` and
`temperature_2m_max = [5.2]` row 1 has `tempMax = 5.2` and row 2 has
`tempMax = "N/A"`. -/
theorem transformDataForTable_defensive :
    (∀ (d : Daily) (times : List String) (i : ℕ),
      d.time = some times → ∀ hi : i < times.length,
      ((transformDataForTable (some { daily := some d }))[i]?.map TableRow.id =
          some (i + 1)) ∧
      ((transformDataForTable (some { daily := some d }))[i]?.map TableRow.date =
          some (times.get ⟨i, hi⟩)) ∧
      (∀ g p, (g, p) ∈ fieldAccessors →
        (∀ l, g d = some l → ∀ hl : i < l.length,
          (transformDataForTable (some { daily := some d }))[i]?.map p =
            some (CellVal.num (l.get ⟨i, hl⟩))) ∧
        ((transformDataForTable (some { daily := some d }))[i]?.map p =
            some CellVal.na ↔
          g d = none ∨ ∃ l, g d = some l ∧ l.length ≤ i))) ∧
    (transformDataForTable
        (some { daily := some { time := some ["2023-01-01", "2023-01-02"],
                                temperature_2m_max := some [5.2] } })).map
        TableRow.tempMax = [CellVal.num 5.2, CellVal.na] ∧
    (transformDataForTable
        (some { daily := some { time := some ["2023-01-01", "2023-01-02"],
                                temperature_2m_max := some [5.2] } })).map
        TableRow.id = [1, 2] := by
  refine ⟨?_, by rfl, by rfl⟩
  intro d times i ht hi
  rw [transformDataForTable_get? d times i ht hi]
  refine ⟨rfl, rfl, ?_⟩
  intro g p hmem
  fin_cases hmem <;>
    refine ⟨fun l hl hil => ?_, ?_⟩ <;>
      simp only [Option.map_some', Option.some.injEq]
  case _ => rw [hl, optCell_of_lt l i hil]
  case _ => exact optCell_eq_na_iff _ i
  case _ => rw [hl, optCell_of_lt l i hil]
  case _ => exact optCell_eq_na_iff _ i
  case _ => rw [hl, optCell_of_lt l i hil]
  case _ => exact optCell_eq_na_iff _ i
  case _ => rw [hl, optCell_of_lt l i hil]
  case _ => exact optCell_eq_na_iff _ i
  case _ => rw [hl, optCell_of_lt l i hil]
  case _ => exact optCell_eq_na_iff _ i
  case _ => rw [hl, optCell_of_lt l i hil]
  case _ => exact optCell_eq_na_iff _ i

/-- Witness for C2 at the claim's own concrete input, index 1. -/
theorem transformDataForTable_defensive_witness :
    (transformDataForTable
        (some { daily := some { time := some ["2023-01-01", "2023-01-02"],
                                temperature_2m_max := some [5.2] } }))[1]?.map
        TableRow.tempMax = some CellVal.na ∧
    (transformDataForTable
        (some { daily := some { time := some ["2023-01-01", "2023-01-02"],
                                temperature_2m_max := some [5.2] } }))[1]?.map
        TableRow.id = some 2 := by
  have h := transformDataForTable_defensive.1
    { time := some ["2023-01-01", "2023-01-02"], temperature_2m_max := some [5.2] }
    ["2023-01-01", "2023-01-02"] 1 rfl (by decide)
  refine ⟨?_, h.1⟩
  exact (h.2.2 Daily.temperature_2m_max TableRow.tempMax (by simp [fieldAccessors])).2.mpr
    (Or.inr ⟨[5.2], rfl, by decide⟩)

/-- C5 (amended): `transformDataForChart` returns null iff its input is null
or lacks `daily`; otherwise the labels are `daily.time` (empty if absent) and
there are exactly three series, in the fixed order "Max Temperature (°C)",
"Min Temperature (°C)", "Mean Temperature (°C)", each sourcing the
correspondingly named `daily` field, an absent field yielding a present series
with zero points rather than an omitted series. -/
theorem transformDataForChart_spec :
    (∀ w, transformDataForChart w = none ↔
      w = none ∨ ∃ r, w = some r ∧ r.daily = none) ∧
    (∀ (r : RawSeriesResponse) (d : Daily), r.daily = some d →
      (transformDataForChart (some r)).map ChartData.labels =
        some (d.time.getD []) ∧
      (transformDataForChart (some r)).map (fun c => c.datasets.length) = some 3 ∧
      (transformDataForChart (some r)).map (fun c => c.datasets.map ChartDataset.label) =
        some ["Max Temperature (°C)", "Min Temperature (°C)", "Mean Temperature (°C)"] ∧
      (transformDataForChart (some r)).map (fun c => c.datasets.map ChartDataset.data) =
        some [d.temperature_2m_max.getD [], d.temperature_2m_min.getD [],
              d.temperature_2m_mean.getD []]) := by
  constructor
  · intro w
    cases w with
    | none => simp [transformDataForChart]
    | some r =>
      cases hd : r.daily with
      | none => simp [transformDataForChart, hd]
      | some d =>
        simp only [transformDataForChart, hd]
        constructor
        · intro h
          exact Option.noConfusion h
        · rintro (h | ⟨r', hr', hd'⟩)
          · exact Option.noConfusion h
          · cases hr'
            rw [hd] at hd'
            exact Option.noConfusion hd'
  · intro r d hd
    have hred : transformDataForChart (some r) =
        some
          { labels := d.time.getD []
            datasets :=
              [ { label := "Max Temperature (°C)"
                  data := d.temperature_2m_max.getD []
                  borderColor := "rgb(239, 68, 68)"
                  backgroundColor := "rgba(239, 68, 68, 0.1)"
                  tension := 0.4 },
                { label := "Min Temperature (°C)"
                  data := d.temperature_2m_min.getD []
                  borderColor := "rgb(59, 130, 246)"
                  backgroundColor := "rgba(59, 130, 246, 0.1)"
                  tension := 0.4 },
                { label := "Mean Temperature (°C)"
                  data := d.temperature_2m_mean.getD []
                  borderColor := "rgb(16, 185, 129)"
                  backgroundColor := "rgba(16, 185, 129, 0.1)"
                  tension := 0.4 } ] } := by
      dsimp only [transformDataForChart]
      rw [hd]
    rw [hred]
    exact ⟨rfl, rfl, rfl, rfl⟩

/-- Witness for C5's amended theorem at a concrete payload with an absent
mean-temperature array (its series is present with zero points). -/
theorem transformDataForChart_spec_witness :
    (transformDataForChart
        (some { daily := some { time := some ["2023-01-01"],
                                temperature_2m_max := some [5],
                                temperature_2m_min := some [2] } })).map
        (fun c => c.datasets.map ChartDataset.label) =
      some ["Max Temperature (°C)", "Min Temperature (°C)", "Mean Temperature (°C)"] ∧
    (transformDataForChart
        (some { daily := some { time := some ["2023-01-01"],
                                temperature_2m_max := some [5],
                                temperature_2m_min := some [2] } })).map
        (fun c => c.datasets.map ChartDataset.data) =
      some [[5], [2], []] :=
  ⟨((transformDataForChart_spec.2
      { daily := some { time := some ["2023-01-01"], temperature_2m_max := some [5],
                        temperature_2m_min := some [2] } }
      { time := some ["2023-01-01"], temperature_2m_max := some [5],
        temperature_2m_min := some [2] } rfl).2.2.1),
   ((transformDataForChart_spec.2
      { daily := some { time := some ["2023-01-01"], temperature_2m_max := some [5],
                        temperature_2m_min := some [2] } }
      { time := some ["2023-01-01"], temperature_2m_max := some [5],
        temperature_2m_min := some [2] } rfl).2.2.2)⟩

/-- C5 counterexample: at a well-formed payload the three series are named
with the unit suffix "(°C)", so they are not named "Max Temperature",
"Min Temperature", "Mean Temperature" as the claim states. -/
theorem transformDataForChart_labels_counterexample :
    (transformDataForChart (some { daily := some { time := some ["2023-01-01"] } })).map
        (fun c => c.datasets.map ChartDataset.label) ≠
      some ["Max Temperature", "Min Temperature", "Mean Temperature"] := by
  decide

/-- C6: `validateFormInputs` checks latitude, then longitude, then the date
range, short-circuiting at the first failure in that order and returning that
check's result; and whenever validation fails, the submission stops with that
validation error and makes zero store and zero retrieve calls. -/
theorem validation_short_circuit (f : FormData) (today : ℤ) (st : DashboardState)
    (so : AxiosOutcome StoreResponse) (fo : AxiosOutcome RawSeriesResponse) :
    ((validateLatitude f.latitude).isValid = false →
      validateFormInputs f today = validateLatitude f.latitude) ∧
    ((validateLatitude f.latitude).isValid = true →
      (validateLongitude f.longitude).isValid = false →
      validateFormInputs f today = validateLongitude f.longitude) ∧
    ((validateLatitude f.latitude).isValid = true →
      (validateLongitude f.longitude).isValid = true →
      (validateDateRange f.startDate f.endDate today).isValid = false →
      validateFormInputs f today = validateDateRange f.startDate f.endDate today) ∧
    ((validateFormInputs f today).isValid = false →
      handleSubmit f today st so fo =
        { formErrors := (validateFormInputs f today).error, dash := st,
          storeCalls := 0, fetchCalls := 0 }) := by
  refine ⟨?_, ?_, ?_, ?_⟩
  · intro h
    simp [validateFormInputs, h]
  · intro h1 h2
    simp [validateFormInputs, h1, h2]
  · intro h1 h2 h3
    simp [validateFormInputs, h1, h2, h3]
  · intro h
    simp [handleSubmit, h]

/-- Witness for C6: the out-of-range latitude 200 stops the submission with
the latitude error and no network calls. -/
theorem validation_short_circuit_witness :
    (validateFormInputs
        { latitude := .num 200, longitude := .num 0,
          startDate := some 0, endDate := some 0 } 0).isValid = false ∧
    handleSubmit
        { latitude := .num 200, longitude := .num 0,
          startDate := some 0, endDate := some 0 } 0
        { loading := false, weatherData := none, chartData := none,
          tableData := [], error := none, lastQuery := none }
        (.err .request) (.err .request) =
      { formErrors := some "Latitude must be between -90 and 90 degrees",
        dash := { loading := false, weatherData := none, chartData := none,
                  tableData := [], error := none, lastQuery := none },
        storeCalls := 0, fetchCalls := 0 } := by
  have hv : validateFormInputs
      { latitude := .num 200, longitude := .num 0,
        startDate := some 0, endDate := some 0 } 0 =
      ⟨false, some "Latitude must be between -90 and 90 degrees"⟩ := by
    norm_num [validateFormInputs, validateLatitude, parseFloat]
  have h := (validation_short_circuit
      { latitude := .num 200, longitude := .num 0,
        startDate := some 0, endDate := some 0 } 0
      { loading := false, weatherData := none, chartData := none,
        tableData := [], error := none, lastQuery := none }
      (.err .request) (.err .request)).2.2.2 (by rw [hv])
  rw [h, hv]
  exact ⟨rfl, rfl⟩

/-- C7: when the store transport reports an error status, the submission ends
in the failed state whose message is the server-error classification
"API Error: <status> - <server message>", the retrieve step is never entered
(zero fetch calls), and the same three-way error classification produces
identical messages at both network call sites. -/
theorem store_error_classification (st : DashboardState) (q : SubmittedQuery)
    (status : ℕ) (errData : Option String) (statusText : String)
    (fo : AxiosOutcome RawSeriesResponse) :
    handleFormSubmit st q (.err (.response status errData statusText)) fo =
      ({ st with
          loading := false
          error := some ("API Error: " ++ toString status ++ " - " ++
            jsOrString errData statusText)
          weatherData := none
          chartData := none
          tableData := [] }, 1, 0) ∧
    (∀ (e : AxiosError) (fn : String),
      (storeWeatherData (.err e)).error = (getWeatherFileContent fn (.err e)).error) := by
  constructor
  · rfl
  · intro e fn
    cases e <;> rfl

/-- C8: every envelope produced by the store and retrieve-by-key operations
satisfies the `OperationResult` invariant: `success = true` iff `data` is
non-null and `error` is null, and `success = false` iff `data` is null and
`error` is non-null. -/
theorem operationResult_invariant (so : AxiosOutcome StoreResponse)
    (fn : String) (fo : AxiosOutcome RawSeriesResponse) :
    ((storeWeatherData so).success = true ↔
      (storeWeatherData so).data ≠ none ∧ (storeWeatherData so).error = none) ∧
    ((storeWeatherData so).success = false ↔
      (storeWeatherData so).data = none ∧ (storeWeatherData so).error ≠ none) ∧
    ((getWeatherFileContent fn fo).success = true ↔
      (getWeatherFileContent fn fo).data ≠ none ∧
        (getWeatherFileContent fn fo).error = none) ∧
    ((getWeatherFileContent fn fo).success = false ↔
      (getWeatherFileContent fn fo).data = none ∧
        (getWeatherFileContent fn fo).error ≠ none) := by
  cases so <;> cases fo <;> simp [storeWeatherData, getWeatherFileContent]

/-- C9: whenever the store step or the fetch step fails, the orchestrator
clears all derived state — raw payload and chart become null, the table
becomes empty — while surfacing that step's error, so a previous submission's
data is discarded rather than retained alongside the error message. -/
theorem failure_clears_derived_state (st : DashboardState) (q : SubmittedQuery)
    (so : AxiosOutcome StoreResponse) (fo : AxiosOutcome RawSeriesResponse) :
    ((storeWeatherData so).success = false →
      handleFormSubmit st q so fo =
        ({ st with
            loading := false
            error := (storeWeatherData so).error
            weatherData := none
            chartData := none
            tableData := [] }, 1, 0)) ∧
    ((storeWeatherData so).success = true →
      (getWeatherFileContent
          (((storeWeatherData so).data.map StoreResponse.filename).getD "") fo).success =
        false →
      handleFormSubmit st q so fo =
        ({ st with
            loading := false
            error := (getWeatherFileContent
              (((storeWeatherData so).data.map StoreResponse.filename).getD "") fo).error
            weatherData := none
            chartData := none
            tableData := [] }, 1, 1)) := by
  constructor
  · intro h
    simp [handleFormSubmit, h]
  · intro h1 h2
    simp [handleFormSubmit, h1, h2]

/-- Witness for C9: an unreachable store service wipes previously displayed
data and surfaces the network error. -/
theorem failure_clears_derived_state_witness :
    handleFormSubmit
        { loading := false, weatherData := some { daily := none },
          chartData := some { labels := ["2023-01-01"], datasets := [] },
          tableData := [{ id := 1, date := "2023-01-01", tempMax := CellVal.na,
                          tempMin := CellVal.na, tempMean := CellVal.na,
                          apparentTempMax := CellVal.na, apparentTempMin := CellVal.na,
                          apparentTempMean := CellVal.na }],
          error := none, lastQuery := none }
        { latitude := some 1, longitude := some 2, startDate := some 0, endDate := some 0 }
        (.err .request) (.err .request) =
      ({ loading := false, weatherData := none, chartData := none, tableData := [],
         error := some "Network error: Unable to reach backend service",
         lastQuery := none }, 1, 0) :=
  (failure_clears_derived_state _ _ _ _).1 rfl
